import Mathlib

/-!
# Verification of the geogee shapefile/GeoJSON pipeline

Shallow embedding of `src/geogee/geogee2.py` (module `geogee.geogee2`):
the conversion helper `shp_to_geojson` and the `Map` methods
`add_geojson`, `add_ee_layer` and `ee_tile_layer`.

External collaborators (the `shapefile` reader, the `json` library,
the `ee` client, `os` path/directory primitives, and the `utils`
helpers, none of which live in this repository's sources) are modelled
abstractly, each with a doc comment stating what is modelled.
-/

namespace Geogee

/-- JSON values as produced by Python's `json` module and by the
shapefile reader's `__geo_interface__`.  Numbers are modelled as exact
rationals (Python floats are not claimed to arithmetic here; claims
only compare values structurally). -/
inductive Json where
  | null : Json
  | bool (b : Bool) : Json
  | num (q : ℚ) : Json
  | str (s : String) : Json
  | arr (elems : List Json) : Json
  | obj (fields : List (String × Json)) : Json

/-- Contents of a file on disk: either raw bytes (e.g. a binary
shapefile, modelled as an opaque string) or a JSON document written by
`json.dump`.  `Modelled from the spec:` the `json` library's
dump/load pair is a faithful inverse pair, so a dumped document is
stored as the structured value it serializes. -/
inductive FileData where
  | raw (bytes : String) : FileData
  | json (j : Json) : FileData

/-- A filesystem: an association list of regular files (path ↦ content,
first binding wins) plus the set of directories.  This is the state
that `os.path.exists`, `os.makedirs` and `open(..., "w")` act on. -/
structure FS where
  files : List (String × FileData)
  dirs : List String

/-- First binding of a path in a file association list. -/
def lookupFileList : List (String × FileData) → String → Option FileData
  | [], _ => none
  | (q, v) :: rest, p => if q = p then some v else lookupFileList rest p

/-- Look up the content of a regular file (`None` for directories and
missing paths). -/
def FS.lookupFile (fs : FS) (p : String) : Option FileData :=
  lookupFileList fs.files p

/-- Python `os.path.exists`: true for regular files AND directories. -/
def FS.pathExists (fs : FS) (p : String) : Bool :=
  (fs.lookupFile p).isSome || fs.dirs.contains p

/-- Python `os.path.isfile`: true only for regular files. -/
def FS.isFile (fs : FS) (p : String) : Bool :=
  (fs.lookupFile p).isSome

/-- `open(p, "w")` followed by writing `v`: truncates any existing file
at `p` and leaves exactly `v` there (overwrite, not append). -/
def FS.writeFile (fs : FS) (p : String) (v : FileData) : FS :=
  { fs with files := (p, v) :: fs.files }

/-- Whether a path (as a character list) is absolute, i.e. starts
with `/` (POSIX, as `os.path` on the test platform). -/
def isAbsoluteChars : List Char → Bool
  | [] => false
  | c :: _ => c = '/'

/-- Whether a path is absolute. -/
def isAbsolute (p : String) : Bool :=
  isAbsoluteChars p.data

/-- `Modelled from the spec:` `os.path.abspath` — an already-absolute
path is returned as is, a relative one is resolved against the current
working directory (`.`/`..` normalisation is not exercised by any
claim and is omitted). -/
def abspath (cwd p : String) : String :=
  if isAbsolute p then p else cwd ++ "/" ++ p

/-- Split a character list on `/` (helper for `dirname`). -/
def splitSlashChars : List Char → List (List Char)
  | [] => [[]]
  | c :: rest =>
    let r := splitSlashChars rest
    if c = '/' then [] :: r
    else
      match r with
      | [] => [[c]]
      | h :: t => (c :: h) :: t

/-- Split a path into its `/`-separated components. -/
def splitSlash (p : String) : List String :=
  (splitSlashChars p.data).map (fun cs => ⟨cs⟩)

/-- Join path components with `/`. -/
def joinSlash : List String → String
  | [] => ""
  | [s] => s
  | s :: rest => s ++ "/" ++ joinSlash rest

/-- `Modelled from the spec:` `os.path.dirname` — everything before the
last `/`, with the root special-cased as in CPython. -/
def dirname (p : String) : String :=
  let d := joinSlash (splitSlash p).dropLast
  if d = "" && isAbsolute p then "/" else d

/-- `Modelled from the spec:` `os.makedirs(d, exist_ok=True)` —
registers `d` and all its ancestors as directories; existing
directories are untouched (`exist_ok=True`), and no file content
changes. -/
def FS.makedirs (fs : FS) (d : String) : FS :=
  { fs with
    dirs := d :: ((splitSlash d).dropLast.tails.map joinSlash) ++ fs.dirs }

/-- The error outcomes of the embedded operations, named after the
spec's taxonomy (§7).  `notFound` is Python's `FileNotFoundError`,
`invalidInput` is the `TypeError` from `add_geojson`,
`unsupportedType` is the `AttributeError` from `ee_tile_layer`, and
`readerFailed`/`otherFailure` stand for errors propagated unmodified
from external collaborators (the shapefile parser, `open`/`json.load`
on unsuitable content). -/
inductive Err where
  | notFound : Err
  | readerFailed : Err
  | invalidInput : Err
  | unsupportedType : Err
  | otherFailure : Err
deriving DecidableEq, Repr

/-- Shallow embedding of `shp_to_geojson` (geogee2.py lines 28–48).

`readShp` abstracts the external `shapefile.Reader(path).__geo_interface__`
capability: `Modelled from the spec:` a pure function of the file's
content producing its FeatureCollection (spec §6: "given a path,
exposes geometry and attribute records plus a method to project them
into a standard FeatureCollection structure").  When the existence
check passes but the path holds no regular file (it is a directory),
the reader fails with its own error, which the code propagates
unmodified (spec §7 "Propagated/Unmodified").

Returns the result of the call paired with the filesystem after the
call (unchanged when an exception is raised). -/
def shp_to_geojson (readShp : FileData → Json) (cwd : String) (fs : FS)
    (in_shp : String) (out_geojson : Option String) : Except Err Json × FS :=
  let in_abs := abspath cwd in_shp
  if !(fs.pathExists in_abs) then
    (.error .notFound, fs)
  else
    match fs.lookupFile in_abs with
    | none => (.error .readerFailed, fs)
    | some content =>
      let geojson := readShp content
      match out_geojson with
      | none => (.ok geojson, fs)
      | some out =>
        let out_abs := abspath cwd out
        let fs1 := fs.makedirs (dirname out_abs)
        let fs2 := fs1.writeFile out_abs (.json geojson)
        (.ok geojson, fs2)

/-- `Modelled from the spec:` `json.load` on a file's content — the
inverse of `json.dump`; raw non-JSON bytes make it fail. -/
def json_load : FileData → Except Err Json
  | .raw _ => .error .otherFailure
  | .json j => .ok j

mutual

/-- The deterministic textual JSON encoding produced by `json.dump`
(compact Python separators are irrelevant to the claims; what matters
is that the encoding is a function of the value). -/
def Json.serialize : Json → String
  | .null => "null"
  | .bool true => "true"
  | .bool false => "false"
  | .num q => toString q
  | .str s => "\"" ++ s ++ "\""
  | .arr elems => "[" ++ Json.serializeElems elems ++ "]"
  | .obj fields => "\x7b" ++ Json.serializeFields fields ++ "\x7d"

/-- Serialize the elements of a JSON array. -/
def Json.serializeElems : List Json → String
  | [] => ""
  | [x] => Json.serialize x
  | x :: xs => Json.serialize x ++ ", " ++ Json.serializeElems xs

/-- Serialize the fields of a JSON object. -/
def Json.serializeFields : List (String × Json) → String
  | [] => ""
  | [(k, v)] => "\"" ++ k ++ "\": " ++ Json.serialize v
  | (k, v) :: xs =>
    "\"" ++ k ++ "\": " ++ Json.serialize v ++ ", " ++ Json.serializeFields xs

end

/-- The style mapping handed to `ipyleaflet.GeoJSON` (the fields of the
default dict literal at geogee2.py lines 103–111).  Opacities are exact
rationals; `0.4` denotes the literal `0.4` of the source. -/
structure StyleSpec where
  stroke : Bool
  color : String
  weight : ℕ
  opacity : ℚ
  fill : Bool
  fillColor : String
  fillOpacity : ℚ
deriving DecidableEq, Repr

/-- The default style dict built by `add_geojson` when `style is None`
(geogee2.py lines 102–111). -/
def defaultStyle : StyleSpec :=
  { stroke := true
    color := "#000000"
    weight := 2
    opacity := 1
    fill := true
    fillColor := "#0000ff"
    fillOpacity := 0.4 }

/-- The `ipyleaflet.GeoJSON` layer as constructed at geogee2.py
lines 113–115: the data, the style actually passed, and the layer name
it is registered under. -/
structure GeoJSONLayer where
  data : Json
  style : StyleSpec
  name : String

/-- The possible runtime types of `add_geojson`'s `in_geojson`
argument: a `str` (file path), a `dict` (in-memory FeatureCollection),
or any other Python value. -/
inductive GeoJsonInput where
  | pathStr (s : String) : GeoJsonInput
  | dict (j : Json) : GeoJsonInput
  | otherValue : GeoJsonInput

/-- The layer-name policy of geogee2.py lines 89–90: the sentinel
`"Untitled"` is replaced by `f"Untitled_{random_string()}"`, any other
name is kept.  `rand` is the string returned by the external
`utils.random_string` helper (`Modelled from the spec:` a fixed-length
random alphanumeric string; its value is opaque here). -/
def resolveLayerName (rand layer_name : String) : String :=
  if layer_name = "Untitled" then "Untitled_" ++ rand else layer_name

/-- Shallow embedding of `Map.add_geojson` (geogee2.py lines 86–115).
Returns the layer handed to `self.add_layer`, or the raised error:
`TypeError` (`invalidInput`) when the argument is neither `str` nor
`dict`, `FileNotFoundError` (`notFound`) for a missing path, and a
propagated failure when `open`/`json.load` cannot produce a dict from
the path (e.g. a directory or raw non-JSON bytes). -/
def add_geojson (fs : FS) (rand : String) (in_geojson : GeoJsonInput)
    (style : Option StyleSpec) (layer_name : String) : Except Err GeoJSONLayer :=
  let layer_name := resolveLayerName rand layer_name
  match in_geojson with
  | .pathStr s =>
    if !(fs.pathExists s) then .error .notFound
    else
      match fs.lookupFile s with
      | some (.json data) =>
        .ok { data := data, style := style.getD defaultStyle, name := layer_name }
      | _ => .error .otherFailure
  | .dict data =>
    .ok { data := data, style := style.getD defaultStyle, name := layer_name }
  | .otherValue => .error .invalidInput

/-- The possible runtime types of the `ee_object` argument of
`ee_tile_layer`: the five recognized Earth Engine classes of the
`isinstance` check at geogee2.py lines 142–151, or any other value.
Payloads are opaque identities; an `ImageCollection` carries the
images it would composite. -/
inductive EEObject where
  | image (id : String) : EEObject
  | imageCollection (imgs : List String) : EEObject
  | feature (id : String) : EEObject
  | featureCollection (id : String) : EEObject
  | geometry (id : String) : EEObject
  | nonEE (v : String) : EEObject
deriving DecidableEq, Repr

/-- Whether the value passes the `isinstance` check of geogee2.py
lines 142–151. -/
def EEObject.isRecognized : EEObject → Bool
  | .nonEE _ => false
  | _ => true

/-- Visualization parameters: a Python dict of options, modelled as an
association list. -/
abbrev VisParams := List (String × String)

/-- The `ipyleaflet.TileLayer` constructed at geogee2.py
lines 162–168. -/
structure TileLayer where
  url : String
  name : String
  opacity : ℚ
  visible : Bool
  attribution : String
deriving Repr

/-- The replacement of geogee2.py lines 156–157: an `ImageCollection`
is replaced by its mosaic before the map-id request, every other value
is left unchanged.  `mos` abstracts `ee.ImageCollection.mosaic`
(`Modelled from the spec:` the remote service composites the
collection into a single image; only its identity matters here). -/
def eeProcess (mos : List String → String) : EEObject → EEObject
  | .imageCollection imgs => .image (mos imgs)
  | o => o

/-- Shallow embedding of `Map.ee_tile_layer` (geogee2.py
lines 137–170).  `getMapId` abstracts the remote
`ee_object.getMapId(vis_params)["tile_fetcher"].url_format` round trip
(`Modelled from the spec:` given an image/collection/feature/geometry
handle and visualization parameters, returns a tile URL template). -/
def ee_tile_layer (getMapId : EEObject → VisParams → String)
    (mos : List String → String) (ee_object : EEObject)
    (vis_params : VisParams) (name : String) (shown : Bool)
    (opacity : ℚ) : Except Err TileLayer :=
  if !ee_object.isRecognized then
    .error .unsupportedType
  else
    let ee_object := eeProcess mos ee_object
    let tile_url := getMapId ee_object vis_params
    .ok { url := tile_url
          name := name
          opacity := opacity
          visible := shown
          attribution := "Google Earth Engine" }

/-- The two module-level default dict objects created once when the
`Map` class body is executed: `vis_params={}` of `add_ee_layer`
(line 126) and of `ee_tile_layer` (line 138).  In Python these objects
are shared across all calls that omit the argument, so any in-place
mutation by one call would be visible to later calls; threading them
as state makes that observable. -/
structure VisDefaults where
  addLayerDefault : VisParams
  tileLayerDefault : VisParams

/-- The state of the defaults when the class body has just run: both
dicts are freshly created empty dicts. -/
def initialVisDefaults : VisDefaults := ⟨[], []⟩

/-- A call to `Map.ee_tile_layer` with the default-argument machinery
made explicit: when the caller omits `vis_params` the shared default
dict is used.  The body (lines 142–170) performs no mutating operation
on `vis_params` — it is only passed to `getMapId` — so the defaults
state is returned unchanged. -/
def ee_tile_layer_call (getMapId : EEObject → VisParams → String)
    (mos : List String → String) (st : VisDefaults) (ee_object : EEObject)
    (vis_params : Option VisParams) (name : String) (shown : Bool)
    (opacity : ℚ) : Except Err TileLayer × VisDefaults :=
  let vis := vis_params.getD st.tileLayerDefault
  (ee_tile_layer getMapId mos ee_object vis name shown opacity, st)

/-- A call to `Map.add_ee_layer` (geogee2.py lines 126–131) with the
default-argument machinery made explicit.  The body only forwards its
`vis_params` (possibly the shared default dict) to `ee_tile_layer`,
never mutating it. -/
def add_ee_layer_call (getMapId : EEObject → VisParams → String)
    (mos : List String → String) (st : VisDefaults) (ee_object : EEObject)
    (vis_params : Option VisParams) (name : String) (shown : Bool)
    (opacity : ℚ) : Except Err TileLayer × VisDefaults :=
  let vis := vis_params.getD st.addLayerDefault
  ee_tile_layer_call getMapId mos st ee_object (some vis) name shown opacity

/-! ## Basic filesystem lemmas -/

theorem FS.lookupFile_writeFile (fs : FS) (p : String) (v : FileData) (q : String) :
    (fs.writeFile p v).lookupFile q = if p = q then some v else fs.lookupFile q := rfl

theorem FS.lookupFile_makedirs (fs : FS) (d q : String) :
    (fs.makedirs d).lookupFile q = fs.lookupFile q := rfl

theorem FS.pathExists_of_lookupFile {fs : FS} {p : String} {c : FileData}
    (h : fs.lookupFile p = some c) : fs.pathExists p = true := by
  simp [FS.pathExists, h]

/-! ## Sample fixtures used by the witnesses -/

/-- A sample abstraction of the shapefile reader, sending any content
to a fixed FeatureCollection. -/
def sampleRead : FileData → Json :=
  fun _ => Json.obj [("type", Json.str "FeatureCollection"), ("features", Json.arr [])]

/-- A filesystem holding one shapefile. -/
def sampleFS : FS := ⟨[("/data/in.shp", FileData.raw "shpbytes")], []⟩

/-- A filesystem holding one directory and no files. -/
def dirOnlyFS : FS := ⟨[], ["/d"]⟩

/-! ## Claims -/

/-- C1: for every existing input shapefile path, `shp_to_geojson`
returns the in-memory FeatureCollection whether or not an output path
is supplied, and when an output path is supplied the content written
to that file, once parsed, deep-equals the returned FeatureCollection. -/
theorem shp_to_geojson_returns_and_writes_featurecollection
    (readShp : FileData → Json) (cwd : String) (fs : FS)
    (in_shp out : String) (content : FileData)
    (h : fs.lookupFile (abspath cwd in_shp) = some content) :
    (shp_to_geojson readShp cwd fs in_shp none).1 = .ok (readShp content) ∧
    (shp_to_geojson readShp cwd fs in_shp (some out)).1 = .ok (readShp content) ∧
    (shp_to_geojson readShp cwd fs in_shp (some out)).2.lookupFile (abspath cwd out)
      = some (.json (readShp content)) ∧
    json_load (.json (readShp content)) = .ok (readShp content) := by
  have hex : fs.pathExists (abspath cwd in_shp) = true := FS.pathExists_of_lookupFile h
  refine ⟨?_, ?_, ?_, rfl⟩ <;>
    simp [shp_to_geojson, hex, h, FS.lookupFile_writeFile, FS.lookupFile_makedirs, json_load]

/-- C1 witness: the theorem applied to a one-file filesystem, writing
to `/out/f.json`. -/
theorem shp_to_geojson_returns_and_writes_featurecollection_witness :
    sampleFS.lookupFile (abspath "/cwd" "/data/in.shp") = some (.raw "shpbytes") ∧
    ((shp_to_geojson sampleRead "/cwd" sampleFS "/data/in.shp" none).1
        = .ok (sampleRead (.raw "shpbytes")) ∧
      (shp_to_geojson sampleRead "/cwd" sampleFS "/data/in.shp" (some "/out/f.json")).1
        = .ok (sampleRead (.raw "shpbytes")) ∧
      (shp_to_geojson sampleRead "/cwd" sampleFS "/data/in.shp"
            (some "/out/f.json")).2.lookupFile (abspath "/cwd" "/out/f.json")
        = some (.json (sampleRead (.raw "shpbytes"))) ∧
      json_load (.json (sampleRead (.raw "shpbytes")))
        = .ok (sampleRead (.raw "shpbytes"))) :=
  ⟨rfl, shp_to_geojson_returns_and_writes_featurecollection sampleRead "/cwd" sampleFS
    "/data/in.shp" "/out/f.json" (.raw "shpbytes") rfl⟩

/-- Helper: when the input resolves to a regular file, the call
returns the reader's FeatureCollection for its content, whatever the
output argument. -/
theorem shp_to_geojson_result_of_lookup
    (readShp : FileData → Json) (cwd : String) (fs : FS) (in_shp : String)
    (out_geojson : Option String) (content : FileData)
    (h : fs.lookupFile (abspath cwd in_shp) = some content) :
    (shp_to_geojson readShp cwd fs in_shp out_geojson).1 = .ok (readShp content) := by
  have hex : fs.pathExists (abspath cwd in_shp) = true := FS.pathExists_of_lookupFile h
  cases out_geojson <;> simp [shp_to_geojson, hex, h]

/-- Helper: a conversion call writing to `out` does not change any
file other than the one at `abspath cwd out`. -/
theorem shp_to_geojson_preserves_other_files
    (readShp : FileData → Json) (cwd : String) (fs : FS) (in_shp out q : String)
    (hne : abspath cwd out ≠ q) :
    (shp_to_geojson readShp cwd fs in_shp (some out)).2.lookupFile q = fs.lookupFile q := by
  rcases hfd : fs.lookupFile (abspath cwd in_shp) with _ | c <;>
    by_cases hex : fs.pathExists (abspath cwd in_shp) <;>
      simp [shp_to_geojson, hfd, hex, FS.lookupFile_writeFile, FS.lookupFile_makedirs, hne]

/-- Helper: a conversion call that reads `content` and writes to `out`
leaves exactly the dumped FeatureCollection at `abspath cwd out`. -/
theorem shp_to_geojson_written_content
    (readShp : FileData → Json) (cwd : String) (fs : FS) (in_shp out : String)
    (content : FileData)
    (h : fs.lookupFile (abspath cwd in_shp) = some content) :
    (shp_to_geojson readShp cwd fs in_shp (some out)).2.lookupFile (abspath cwd out)
      = some (.json (readShp content)) := by
  have hex : fs.pathExists (abspath cwd in_shp) = true := FS.pathExists_of_lookupFile h
  simp [shp_to_geojson, hex, h, FS.lookupFile_writeFile, FS.lookupFile_makedirs]

/-- C2 counterexample: the path `/d` does not resolve to an existing
*file* (it is a directory, so `lookupFile` is `none`), yet the call
does not fail with NotFound — the `os.path.exists` guard at
geogee2.py line 33 accepts directories, so the reader is invoked and
its own failure propagates. -/
theorem shp_to_geojson_dir_input_no_notFound :
    dirOnlyFS.lookupFile (abspath "/cwd" "/d") = none ∧
    (shp_to_geojson (fun _ => Json.null) "/cwd" dirOnlyFS "/d" (some "/o.json")).1
      = .error .readerFailed ∧
    (shp_to_geojson (fun _ => Json.null) "/cwd" dirOnlyFS "/d" (some "/o.json")).1
      ≠ .error .notFound :=
  ⟨rfl, rfl, fun h => Err.noConfusion (Except.error.inj h)⟩

/-- C2 (amended): for every input path that resolves to neither an
existing file nor an existing directory, `shp_to_geojson` fails with
NotFound and leaves the filesystem unchanged (no output file created
or modified, even when an output path was supplied); when the path
exists but is not a regular file, the reader's own error propagates
instead of NotFound, still with the filesystem unchanged. -/
theorem shp_to_geojson_missing_input_notFound
    (readShp : FileData → Json) (cwd : String) (fs : FS)
    (in_shp : String) (out_geojson : Option String) :
    (fs.pathExists (abspath cwd in_shp) = false →
      shp_to_geojson readShp cwd fs in_shp out_geojson = (.error .notFound, fs)) ∧
    (fs.pathExists (abspath cwd in_shp) = true →
      fs.lookupFile (abspath cwd in_shp) = none →
      shp_to_geojson readShp cwd fs in_shp out_geojson = (.error .readerFailed, fs)) := by
  constructor
  · intro hex
    simp [shp_to_geojson, hex]
  · intro hex hfile
    simp [shp_to_geojson, hex, hfile]

/-- C2 witness: the amended theorem applied to a missing path and to a
directory-only path, with an output path supplied in both calls. -/
theorem shp_to_geojson_missing_input_notFound_witness :
    (dirOnlyFS.pathExists (abspath "/cwd" "/missing.shp") = false ∧
      shp_to_geojson (fun _ => Json.null) "/cwd" dirOnlyFS "/missing.shp" (some "/o.json")
        = (.error .notFound, dirOnlyFS)) ∧
    (dirOnlyFS.pathExists (abspath "/cwd" "/d") = true ∧
      dirOnlyFS.lookupFile (abspath "/cwd" "/d") = none ∧
      shp_to_geojson (fun _ => Json.null) "/cwd" dirOnlyFS "/d" (some "/o.json")
        = (.error .readerFailed, dirOnlyFS)) :=
  ⟨⟨rfl, (shp_to_geojson_missing_input_notFound (fun _ => Json.null) "/cwd" dirOnlyFS
      "/missing.shp" (some "/o.json")).1 rfl⟩,
    ⟨rfl, rfl, (shp_to_geojson_missing_input_notFound (fun _ => Json.null) "/cwd" dirOnlyFS
      "/d" (some "/o.json")).2 rfl rfl⟩⟩

/-- C3: when `add_geojson` gets no StyleSpec the exact fixed mapping
`stroke=true, color="#000000", weight=2, opacity=1, fill=true,
fillColor="#0000ff", fillOpacity=0.4` is used, and a caller-supplied
StyleSpec is used exactly as given, with no field-by-field merging
with the defaults — on both the in-memory and the file-path input
branches. -/
theorem add_geojson_style_replacement (fs : FS) (rand : String) (j : Json)
    (nm : String) :
    (add_geojson fs rand (.dict j) none nm =
      .ok { data := j
            style := { stroke := true, color := "#000000", weight := 2, opacity := 1,
                       fill := true, fillColor := "#0000ff", fillOpacity := 0.4 }
            name := resolveLayerName rand nm }) ∧
    (∀ s : StyleSpec, add_geojson fs rand (.dict j) (some s) nm =
      .ok { data := j, style := s, name := resolveLayerName rand nm }) ∧
    (∀ (p : String) (c : Json), fs.lookupFile p = some (.json c) →
      (add_geojson fs rand (.pathStr p) none nm =
        .ok { data := c, style := defaultStyle, name := resolveLayerName rand nm }) ∧
      (∀ s : StyleSpec, add_geojson fs rand (.pathStr p) (some s) nm =
        .ok { data := c, style := s, name := resolveLayerName rand nm })) ∧
    defaultStyle = { stroke := true, color := "#000000", weight := 2, opacity := 1,
                     fill := true, fillColor := "#0000ff", fillOpacity := 0.4 } := by
  refine ⟨rfl, fun s => rfl, ?_, rfl⟩
  intro p c hp
  have hex : fs.pathExists p = true := by simp [FS.pathExists, hp]
  exact ⟨by simp [add_geojson, hex, hp], fun s => by simp [add_geojson, hex, hp]⟩

/-- C3 witness: the theorem applied to a filesystem holding one
GeoJSON file, with and without a caller-supplied style. -/
theorem add_geojson_style_replacement_witness :
    (FS.lookupFile ⟨[("/v.geojson", FileData.json Json.null)], []⟩ "/v.geojson"
      = some (.json Json.null)) ∧
    (add_geojson ⟨[("/v.geojson", FileData.json Json.null)], []⟩ "abc"
        (.pathStr "/v.geojson") none "Layer1" =
      .ok { data := Json.null, style := defaultStyle
            name := resolveLayerName "abc" "Layer1" }) ∧
    (∀ s : StyleSpec, add_geojson ⟨[("/v.geojson", FileData.json Json.null)], []⟩ "abc"
        (.pathStr "/v.geojson") (some s) "Layer1" =
      .ok { data := Json.null, style := s, name := resolveLayerName "abc" "Layer1" }) :=
  ⟨rfl,
    ((add_geojson_style_replacement ⟨[("/v.geojson", FileData.json Json.null)], []⟩
      "abc" Json.null "Layer1").2.2.1 "/v.geojson" Json.null rfl).1,
    ((add_geojson_style_replacement ⟨[("/v.geojson", FileData.json Json.null)], []⟩
      "abc" Json.null "Layer1").2.2.1 "/v.geojson" Json.null rfl).2⟩

/-- C4: `shp_to_geojson` is deterministic — a second call on the same
input (whose file the first call did not overwrite) yields the same
FeatureCollection, hence the identical JSON encoding. -/
theorem shp_to_geojson_deterministic
    (readShp : FileData → Json) (cwd : String) (fs : FS) (in_shp : String)
    (out_geojson : Option String) (content : FileData)
    (h : fs.lookupFile (abspath cwd in_shp) = some content)
    (hout : ∀ o, out_geojson = some o → abspath cwd o ≠ abspath cwd in_shp) :
    (shp_to_geojson readShp cwd fs in_shp out_geojson).1 = .ok (readShp content) ∧
    (shp_to_geojson readShp cwd (shp_to_geojson readShp cwd fs in_shp out_geojson).2
        in_shp out_geojson).1 = .ok (readShp content) ∧
    (∀ g1 g2,
      (shp_to_geojson readShp cwd fs in_shp out_geojson).1 = .ok g1 →
      (shp_to_geojson readShp cwd (shp_to_geojson readShp cwd fs in_shp out_geojson).2
          in_shp out_geojson).1 = .ok g2 →
      g1 = g2 ∧ Json.serialize g1 = Json.serialize g2) := by
  have h2 : (shp_to_geojson readShp cwd fs in_shp out_geojson).2.lookupFile
      (abspath cwd in_shp) = some content := by
    cases out_geojson with
    | none =>
      have hex : fs.pathExists (abspath cwd in_shp) = true := FS.pathExists_of_lookupFile h
      simp [shp_to_geojson, hex, h]
    | some o =>
      rw [shp_to_geojson_preserves_other_files readShp cwd fs in_shp o
        (abspath cwd in_shp) (hout o rfl)]
      exact h
  have first := shp_to_geojson_result_of_lookup readShp cwd fs in_shp out_geojson content h
  have second := shp_to_geojson_result_of_lookup readShp cwd
    (shp_to_geojson readShp cwd fs in_shp out_geojson).2 in_shp out_geojson content h2
  refine ⟨first, second, ?_⟩
  intro g1 g2 h1 h2'
  have e1 : Except.ok (ε := Err) (readShp content) = .ok g1 := first ▸ h1
  have e2 : Except.ok (ε := Err) (readShp content) = .ok g2 := second ▸ h2'
  cases Except.ok.inj e1
  cases Except.ok.inj e2
  exact ⟨rfl, rfl⟩

/-- C4 witness: two sequenced conversions of the same shapefile, the
second running on the filesystem left by the first. -/
theorem shp_to_geojson_deterministic_witness :
    sampleFS.lookupFile (abspath "/cwd" "/data/in.shp") = some (.raw "shpbytes") ∧
    (∀ o, (some "/out/f.json" : Option String) = some o →
      abspath "/cwd" o ≠ abspath "/cwd" "/data/in.shp") ∧
    ((shp_to_geojson sampleRead "/cwd" sampleFS "/data/in.shp" (some "/out/f.json")).1
        = .ok (sampleRead (.raw "shpbytes")) ∧
      (shp_to_geojson sampleRead "/cwd"
          (shp_to_geojson sampleRead "/cwd" sampleFS "/data/in.shp" (some "/out/f.json")).2
          "/data/in.shp" (some "/out/f.json")).1 = .ok (sampleRead (.raw "shpbytes")) ∧
      (∀ g1 g2,
        (shp_to_geojson sampleRead "/cwd" sampleFS "/data/in.shp" (some "/out/f.json")).1
          = .ok g1 →
        (shp_to_geojson sampleRead "/cwd"
            (shp_to_geojson sampleRead "/cwd" sampleFS "/data/in.shp"
              (some "/out/f.json")).2 "/data/in.shp" (some "/out/f.json")).1 = .ok g2 →
        g1 = g2 ∧ Json.serialize g1 = Json.serialize g2)) :=
  ⟨rfl, fun o ho => by cases ho; decide,
    shp_to_geojson_deterministic sampleRead "/cwd" sampleFS "/data/in.shp"
      (some "/out/f.json") (.raw "shpbytes") rfl
      (fun o ho => by cases ho; decide)⟩

/-- C5: a conversion call with an output path makes the output's
parent directory exist, leaves exactly the dumped FeatureCollection at
the output path, and any later call with the same output path replaces
that content with its own (overwrite, not append: the file reflects
only the latest call). -/
theorem shp_to_geojson_creates_dirs_and_overwrites
    (readShp : FileData → Json) (cwd : String) (fs : FS) (in_shp out : String)
    (content : FileData)
    (h : fs.lookupFile (abspath cwd in_shp) = some content) :
    (shp_to_geojson readShp cwd fs in_shp (some out)).1 = .ok (readShp content) ∧
    dirname (abspath cwd out) ∈ (shp_to_geojson readShp cwd fs in_shp (some out)).2.dirs ∧
    (shp_to_geojson readShp cwd fs in_shp (some out)).2.lookupFile (abspath cwd out)
      = some (.json (readShp content)) ∧
    (∀ (fs2 : FS) (in2 : String) (c2 : FileData),
      fs2.lookupFile (abspath cwd in2) = some c2 →
      (shp_to_geojson readShp cwd fs2 in2 (some out)).2.lookupFile (abspath cwd out)
        = some (.json (readShp c2))) := by
  have hex : fs.pathExists (abspath cwd in_shp) = true := FS.pathExists_of_lookupFile h
  refine ⟨shp_to_geojson_result_of_lookup readShp cwd fs in_shp (some out) content h,
    ?_,
    shp_to_geojson_written_content readShp cwd fs in_shp out content h,
    fun fs2 in2 c2 h2 => shp_to_geojson_written_content readShp cwd fs2 in2 out c2 h2⟩
  simp [shp_to_geojson, hex, h, FS.writeFile, FS.makedirs]

/-- C5 witness: the theorem applied to a fresh filesystem, with the
overwrite clause instantiated at the state left by the first call. -/
theorem shp_to_geojson_creates_dirs_and_overwrites_witness :
    sampleFS.lookupFile (abspath "/cwd" "/data/in.shp") = some (.raw "shpbytes") ∧
    ((shp_to_geojson sampleRead "/cwd" sampleFS "/data/in.shp" (some "/out/f.json")).1
        = .ok (sampleRead (.raw "shpbytes")) ∧
      dirname (abspath "/cwd" "/out/f.json")
        ∈ (shp_to_geojson sampleRead "/cwd" sampleFS "/data/in.shp"
            (some "/out/f.json")).2.dirs ∧
      (shp_to_geojson sampleRead "/cwd" sampleFS "/data/in.shp"
          (some "/out/f.json")).2.lookupFile (abspath "/cwd" "/out/f.json")
        = some (.json (sampleRead (.raw "shpbytes"))) ∧
      (∀ (fs2 : FS) (in2 : String) (c2 : FileData),
        fs2.lookupFile (abspath "/cwd" in2) = some c2 →
        (shp_to_geojson sampleRead "/cwd" fs2 in2 (some "/out/f.json")).2.lookupFile
            (abspath "/cwd" "/out/f.json")
          = some (.json (sampleRead c2)))) :=
  ⟨rfl, shp_to_geojson_creates_dirs_and_overwrites sampleRead "/cwd" sampleFS
    "/data/in.shp" "/out/f.json" (.raw "shpbytes") rfl⟩

/-- A sample abstraction of the remote map-id request. -/
def sampleMapId : EEObject → VisParams → String :=
  fun _ _ => "https://earthengine.googleapis.com/map/tiles"

/-- A sample abstraction of `ImageCollection.mosaic`. -/
def sampleMosaic : List String → String := fun _ => "mosaicImage"

/-- C6: `ee_tile_layer` fails with UnsupportedType exactly on objects
outside the five recognized Earth Engine types, and on every
recognized object it returns a tile layer carrying the remote
service's URL template with attribution "Google Earth Engine". -/
theorem ee_tile_layer_unsupported_iff
    (getMapId : EEObject → VisParams → String) (mos : List String → String)
    (ee_object : EEObject) (vis_params : VisParams) (name : String)
    (shown : Bool) (opacity : ℚ) :
    ((ee_tile_layer getMapId mos ee_object vis_params name shown opacity
        = .error .unsupportedType) ↔ ee_object.isRecognized = false) ∧
    (ee_object.isRecognized = false ↔ ∃ v, ee_object = .nonEE v) ∧
    (ee_object.isRecognized = true →
      ee_tile_layer getMapId mos ee_object vis_params name shown opacity =
        .ok { url := getMapId (eeProcess mos ee_object) vis_params
              name := name
              opacity := opacity
              visible := shown
              attribution := "Google Earth Engine" }) := by
  cases ee_object <;>
    simp [ee_tile_layer, EEObject.isRecognized, eeProcess]

/-- C6 witness: the theorem applied to an unrecognized object and to a
recognized image. -/
theorem ee_tile_layer_unsupported_iff_witness :
    ((ee_tile_layer sampleMapId sampleMosaic (.nonEE "42") [] "L" true 1
        = .error .unsupportedType) ↔ (EEObject.nonEE "42").isRecognized = false) ∧
    ((EEObject.image "img").isRecognized = true ∧
      ee_tile_layer sampleMapId sampleMosaic (.image "img") [] "L" true 1 =
        .ok { url := sampleMapId (eeProcess sampleMosaic (.image "img")) []
              name := "L"
              opacity := 1
              visible := true
              attribution := "Google Earth Engine" }) :=
  ⟨(ee_tile_layer_unsupported_iff sampleMapId sampleMosaic (.nonEE "42") [] "L" true 1).1,
    rfl,
    (ee_tile_layer_unsupported_iff sampleMapId sampleMosaic (.image "img") [] "L" true 1).2.2
      rfl⟩

/-- C7: `add_geojson` fails with InvalidInput exactly when its vector
data is neither a file path nor a dict, and `shp_to_geojson` itself
never produces that error. -/
theorem add_geojson_invalidInput_iff (fs : FS) (rand : String)
    (in_geojson : GeoJsonInput) (style : Option StyleSpec) (nm : String) :
    ((add_geojson fs rand in_geojson style nm = .error .invalidInput)
      ↔ in_geojson = .otherValue) ∧
    (∀ (readShp : FileData → Json) (cwd : String) (fs2 : FS) (in2 : String)
        (out2 : Option String),
      (shp_to_geojson readShp cwd fs2 in2 out2).1 ≠ .error .invalidInput) := by
  constructor
  · cases in_geojson with
    | pathStr s =>
      rcases hfd : fs.lookupFile s with _ | c
      · by_cases hex : fs.pathExists s <;> simp [add_geojson, hex, hfd]
      · cases c <;> by_cases hex : fs.pathExists s <;> simp [add_geojson, hex, hfd]
    | dict j => simp [add_geojson]
    | otherValue => simp [add_geojson]
  · intro readShp cwd fs2 in2 out2
    rcases hfd : fs2.lookupFile (abspath cwd in2) with _ | c <;>
      by_cases hex : fs2.pathExists (abspath cwd in2) <;>
        cases out2 <;> simp [shp_to_geojson, hex, hfd]

/-- C7 witness: the theorem applied to a non-path non-dict argument,
and the conversion function evaluated on an existing shapefile. -/
theorem add_geojson_invalidInput_iff_witness :
    ((add_geojson sampleFS "abc" .otherValue none "L" = .error .invalidInput)
      ↔ (GeoJsonInput.otherValue = .otherValue)) ∧
    (shp_to_geojson sampleRead "/cwd" sampleFS "/data/in.shp" none).1
      ≠ .error .invalidInput :=
  ⟨(add_geojson_invalidInput_iff sampleFS "abc" .otherValue none "L").1,
    (add_geojson_invalidInput_iff sampleFS "abc" .otherValue none "L").2
      sampleRead "/cwd" sampleFS "/data/in.shp" none⟩

/-- C8: a vector layer added under the sentinel name "Untitled" is
registered under the sentinel with a random suffix appended, and any
other supplied name is used unchanged. -/
theorem add_geojson_untitled_naming (fs : FS) (rand : String) (j : Json)
    (style : Option StyleSpec) (nm : String) :
    (resolveLayerName rand "Untitled" = "Untitled" ++ "_" ++ rand) ∧
    (nm ≠ "Untitled" → resolveLayerName rand nm = nm) ∧
    (∀ layer, add_geojson fs rand (.dict j) style nm = .ok layer →
      layer.name = resolveLayerName rand nm) ∧
    (∀ p layer, add_geojson fs rand (.pathStr p) style nm = .ok layer →
      layer.name = resolveLayerName rand nm) := by
  refine ⟨by simp [resolveLayerName], fun hnm => by simp [resolveLayerName, hnm], ?_, ?_⟩
  · intro layer hl
    simp only [add_geojson, Except.ok.injEq] at hl
    subst hl
    rfl
  · intro p layer hl
    rcases hfd : fs.lookupFile p with _ | c
    · by_cases hex : fs.pathExists p <;> simp [add_geojson, hex, hfd] at hl
    · cases c with
      | raw b => by_cases hex : fs.pathExists p <;> simp [add_geojson, hex, hfd] at hl
      | json d =>
        by_cases hex : fs.pathExists p <;> simp [add_geojson, hex, hfd] at hl
        subst hl
        rfl

/-- C8 witness: the naming policy at the sentinel and at an explicit
name, and the name actually carried by an added layer. -/
theorem add_geojson_untitled_naming_witness :
    (resolveLayerName "abc" "Untitled" = "Untitled" ++ "_" ++ "abc") ∧
    (("Roads" : String) ≠ "Untitled" ∧ resolveLayerName "abc" "Roads" = "Roads") ∧
    (add_geojson sampleFS "abc" (.dict Json.null) none "Untitled" =
      .ok { data := Json.null, style := defaultStyle,
            name := resolveLayerName "abc" "Untitled" } ∧
      (GeoJSONLayer.name
          { data := Json.null, style := defaultStyle,
            name := resolveLayerName "abc" "Untitled" }) = resolveLayerName "abc" "Untitled") :=
  ⟨(add_geojson_untitled_naming sampleFS "abc" Json.null none "Untitled").1,
    ⟨by decide,
      (add_geojson_untitled_naming sampleFS "abc" Json.null none "Roads").2.1 (by decide)⟩,
    rfl,
    (add_geojson_untitled_naming sampleFS "abc" Json.null none "Untitled").2.2.1
      { data := Json.null, style := defaultStyle, name := resolveLayerName "abc" "Untitled" }
      rfl⟩

/-- C9: neither `add_ee_layer` nor `ee_tile_layer` mutates the
vis_params mapping: the shared module-level default dicts are the same
after every call, and a call's outcome with an explicit vis_params
argument is independent of the defaults state. -/
theorem vis_params_defaults_not_mutated
    (getMapId : EEObject → VisParams → String) (mos : List String → String)
    (st : VisDefaults) (ee_object : EEObject) (vis_params : Option VisParams)
    (name : String) (shown : Bool) (opacity : ℚ) :
    ((ee_tile_layer_call getMapId mos st ee_object vis_params name shown opacity).2
      = st) ∧
    ((add_ee_layer_call getMapId mos st ee_object vis_params name shown opacity).2
      = st) ∧
    (∀ (st2 : VisDefaults) (v : VisParams),
      (ee_tile_layer_call getMapId mos st ee_object (some v) name shown opacity).1
        = (ee_tile_layer_call getMapId mos st2 ee_object (some v) name shown opacity).1) ∧
    (∀ (st2 : VisDefaults) (v : VisParams),
      (add_ee_layer_call getMapId mos st ee_object (some v) name shown opacity).1
        = (add_ee_layer_call getMapId mos st2 ee_object (some v) name shown opacity).1) :=
  ⟨rfl, rfl, fun _ _ => rfl, fun _ _ => rfl⟩

/-- C10: an `ImageCollection` is replaced by its mosaic before the
map-id request, and every other recognized object reaches the map-id
request unchanged. -/
theorem ee_tile_layer_mosaic_replacement
    (getMapId : EEObject → VisParams → String) (mos : List String → String)
    (vis_params : VisParams) (name : String) (shown : Bool) (opacity : ℚ) :
    (∀ imgs, eeProcess mos (.imageCollection imgs) = .image (mos imgs)) ∧
    (∀ ee_object : EEObject, ee_object.isRecognized = true →
      (∀ imgs, ee_object ≠ .imageCollection imgs) →
      eeProcess mos ee_object = ee_object) ∧
    (∀ ee_object : EEObject, ee_object.isRecognized = true →
      ee_tile_layer getMapId mos ee_object vis_params name shown opacity =
        .ok { url := getMapId (eeProcess mos ee_object) vis_params
              name := name
              opacity := opacity
              visible := shown
              attribution := "Google Earth Engine" }) := by
  refine ⟨fun _ => rfl, ?_, ?_⟩
  · intro o hrec hne
    cases o with
    | imageCollection imgs => exact absurd rfl (hne imgs)
    | nonEE v => simp [EEObject.isRecognized] at hrec
    | _ => rfl
  · intro o hrec
    cases o <;> simp [ee_tile_layer, EEObject.isRecognized, eeProcess] at hrec ⊢

/-- C10 witness: the theorem applied to an image collection and to a
feature. -/
theorem ee_tile_layer_mosaic_replacement_witness :
    (eeProcess sampleMosaic (.imageCollection ["a", "b"])
      = .image (sampleMosaic ["a", "b"])) ∧
    ((EEObject.feature "f").isRecognized = true ∧
      eeProcess sampleMosaic (.feature "f") = .feature "f") ∧
    (ee_tile_layer sampleMapId sampleMosaic (.imageCollection ["a", "b"]) [] "L" true 1 =
      .ok { url := sampleMapId (eeProcess sampleMosaic (.imageCollection ["a", "b"])) []
            name := "L"
            opacity := 1
            visible := true
            attribution := "Google Earth Engine" }) :=
  ⟨(ee_tile_layer_mosaic_replacement sampleMapId sampleMosaic [] "L" true 1).1 ["a", "b"],
    ⟨rfl,
      (ee_tile_layer_mosaic_replacement sampleMapId sampleMosaic [] "L" true 1).2.1
        (.feature "f") rfl (fun _ h => EEObject.noConfusion h)⟩,
    (ee_tile_layer_mosaic_replacement sampleMapId sampleMosaic [] "L" true 1).2.2
      (.imageCollection ["a", "b"]) rfl⟩

end Geogee
